import Mathlib

/-!
Shallow embedding of the thumbnail generation engine of yml/thumbnailer
(package nsqthumbnailer, file thumbnailer.go, plus the nsq consumer's
HandleMessage in cmd/nsq_thumbnailer/main.go).

Modelling conventions:
* Go images (package image / github.com/disintegration/imaging) are modelled
  by GoImage: an origin (minX, minY), a size, a flag telling whether the Go
  dynamic type is *image.NRGBA, and the pixel rows.  Bounds().Max.X is
  minX + width, as in Go.
* The float64 expression math.Floor(float64(a)*float64(b)/float64(c) + 0.5)
  from maxThumbnail (copied from imaging.Resize) is modelled by exact
  rational arithmetic; over the naturals this floor equals
  (2*a*b + c) / (2*c) with Nat division, which is proved below
  (deriveDim_eq_floor).  IEEE rounding of intermediate products is not
  modelled.
* Resampling (imaging.CatmullRom) pixel arithmetic is not modelled: the
  resized image carries nearest-neighbour placeholder pixels.  No claim
  settled here depends on the pixel values produced by a resize, only on
  dimensions; pixel content is tracked exactly through toNRGBA, Clone and
  Crop, where claims do depend on it.
* Go standard library functions used by the source (net/url.Parse,
  path/filepath Ext/Base/Join, strings.ToLower/TrimSuffix) are modelled on
  the input shapes this program exercises: URLs of the form
  scheme://host/path (with a parse error when the string starts with a
  colon, as url.Parse reports missing protocol scheme), clean
  slash-separated paths, ASCII case mapping.
* Channels and goroutines: each per-option goroutine of GenerateThumbnails
  sends exactly one value on the internal error channel, or crashes without
  sending (GenResult.sent = none models the nil-URL dereference described
  at generateThumbnail).  The collecting loop's arrival order is scheduler
  dependent and is therefore a parameter, constrained to be a permutation
  of the sent values.
* Backend I/O is oracle-parameterised: openImg gives the result of
  ImageOpenSaver.Open at the source URL, saveErr the error (if any)
  returned by ImageOpenSaver.Save at a destination URL.  The local-file
  Save path (fsImageOpenSaver.Save) is additionally modelled concretely as
  a file-system transition (fsSave) for the claims about it.
-/

deriving instance DecidableEq for Except

namespace Thumbnailer

/-- One RGBA pixel. -/
abbrev Pixel := ℕ × ℕ × ℕ × ℕ

/-- Model of a Go image value: bounds minimum, size, whether the dynamic
type is *image.NRGBA, and the pixel rows (indexed from the bounds
minimum). -/
structure GoImage where
  minX : Int
  minY : Int
  width : ℕ
  height : ℕ
  isNRGBA : Bool
  pix : List (List Pixel)
deriving DecidableEq

/-- Bounds().Max.X of a Go image. -/
def boundsMaxX (img : GoImage) : Int := img.minX + img.width

/-- Bounds().Max.Y of a Go image. -/
def boundsMaxY (img : GoImage) : Int := img.minY + img.height

/-- imaging.Clone: a zero-origin NRGBA copy with the same pixel content. -/
def imagingClone (img : GoImage) : GoImage :=
  ⟨0, 0, img.width, img.height, true, img.pix⟩

/-- toNRGBA (thumbnailer.go, copied from imaging): returns the argument
itself when its bounds minimum is (0,0) and it already is *image.NRGBA,
otherwise clones it. -/
def toNRGBA (img : GoImage) : GoImage :=
  if img.minX = 0 ∧ img.minY = 0 ∧ img.isNRGBA then img else imagingClone img

/-- A canonical Go image.Rectangle (Min componentwise ≤ Max after
image.Rect's swap normalisation). -/
structure GoRect where
  minX : Int
  minY : Int
  maxX : Int
  maxY : Int
deriving DecidableEq

/-- image.Rect(x0, y0, x1, y1): swaps coordinates so Min ≤ Max. -/
def mkImageRect (x0 y0 x1 y1 : Int) : GoRect :=
  ⟨min x0 x1, min y0 y1, max x0 x1, max y0 y1⟩

/-- Intersection of two rectangles (image.Rectangle.Intersect, before
emptiness normalisation; widths of empty intersections clamp to 0 via
Int.toNat below). -/
def rectInter (r s : GoRect) : GoRect :=
  ⟨max r.minX s.minX, max r.minY s.minY, min r.maxX s.maxX, min r.maxY s.maxY⟩

/-- Width of a rectangle, clamped at 0. -/
def rectW (r : GoRect) : ℕ := (r.maxX - r.minX).toNat

/-- Height of a rectangle, clamped at 0. -/
def rectH (r : GoRect) : ℕ := (r.maxY - r.minY).toNat

/-- Extract the w×h sub-grid of pixel rows starting at column x, row y. -/
def subPix (pix : List (List Pixel)) (x y w h : ℕ) : List (List Pixel) :=
  ((pix.drop y).take h).map (fun row => (row.drop x).take w)

/-- imaging.Crop: clone of the part of the image inside the given
rectangle (intersected with the image bounds), re-indexed to a zero
origin. -/
def imagingCrop (img : GoImage) (r : GoRect) : GoImage :=
  let b : GoRect := ⟨img.minX, img.minY, boundsMaxX img, boundsMaxY img⟩
  let i := rectInter r b
  let w := rectW i
  let h := rectH i
  ⟨0, 0, w, h, true,
    subPix (toNRGBA img).pix (i.minX - img.minX).toNat (i.minY - img.minY).toNat w h⟩

/-- Aspect-ratio derivation of a missing dimension, from maxThumbnail
(thumbnailer.go, copied from imaging.Resize):
int(math.Max(1.0, math.Floor(float64(other)*float64(srcOpp)/float64(srcSame) + 0.5))),
modelled exactly over the rationals; for srcSame > 0 the floor equals
(2*other*srcOpp + srcSame) / (2*srcSame) with Nat division
(see deriveDim_eq_floor). -/
def deriveDim (other srcOpp srcSame : ℕ) : ℕ :=
  max 1 ((2 * other * srcOpp + srcSame) / (2 * srcSame))

/-- The width-then-height resolution order of maxThumbnail and
imaging.Resize: a zero width is derived from the requested height, then a
zero height is derived from the (possibly just derived) width. -/
def resolveDims (w h srcW srcH : ℕ) : ℕ × ℕ :=
  let w1 := if w = 0 then deriveDim h srcW srcH else w
  let h1 := if h = 0 then deriveDim w1 srcH srcW else h
  (w1, h1)

/-- The empty *image.NRGBA{} returned by imaging.Resize on degenerate
arguments. -/
def emptyNRGBA : GoImage := ⟨0, 0, 0, 0, true, []⟩

/-- Placeholder pixel grid for a resize (nearest-neighbour sampling; the
CatmullRom weights of the real code are not modelled and no settled claim
depends on them). -/
def resizePix (pix : List (List Pixel)) (srcW srcH w h : ℕ) : List (List Pixel) :=
  (List.range h).map (fun y =>
    (List.range w).map (fun x =>
      (pix.getD (y * srcH / h) []).getD (x * srcW / w) (0, 0, 0, 0)))

/-- imaging.Resize: empty image on a fully zero request or an empty
source, otherwise aspect-ratio resolution of zero dimensions followed by a
resample to exactly the resolved size (output is zero-origin NRGBA). -/
def imagingResize (img : GoImage) (w h : ℕ) : GoImage :=
  if w = 0 ∧ h = 0 then emptyNRGBA
  else if img.width = 0 ∨ img.height = 0 then emptyNRGBA
  else
    let p := resolveDims w h img.width img.height
    ⟨0, 0, p.1, p.2, true, resizePix (toNRGBA img).pix img.width img.height p.1 p.2⟩

/-- The JSON rectangle of a ThumbnailOpt (field rect). -/
structure GoRectangle where
  min : Int × Int
  max : Int × Int
deriving DecidableEq

/-- rectangle.newImageRect: image.Rect over the four coordinates. -/
def GoRectangle.newImageRect (r : GoRectangle) : GoRect :=
  mkImageRect r.min.1 r.min.2 r.max.1 r.max.2

/-- ThumbnailOpt: one requested derived image.  An empty dstImage string
means no explicit destination, as in the Go zero value.  Width and height
are the non-negative ints of the data model. -/
structure ThumbnailOpt where
  dstImage : String
  rect : Option GoRectangle
  width : ℕ
  height : ℕ
deriving DecidableEq

/-- ThumbnailerMessage: one Job. -/
structure ThumbnailerMessage where
  srcImage : String
  deleteSrc : Bool
  dstFolder : String
  opts : List ThumbnailOpt
deriving DecidableEq

/-- Model of a parsed net/url URL (the components this program reads). -/
structure GoURL where
  scheme : String
  host : String
  path : String
deriving DecidableEq

/-- Error values observable in the model. -/
inductive GoError where
  | parseErr (msg : String)
  | openSaverErr (u : GoURL)
  | unsupportedFormat
  | ioErr (msg : String)
deriving DecidableEq

/-- ASCII lower-casing of one character (models strings.ToLower on the
ASCII inputs this program lower-cases: schemes and file extensions). -/
def lowerChar (c : Char) : Char :=
  if 65 ≤ c.toNat ∧ c.toNat ≤ 90 then Char.ofNat (c.toNat + 32) else c

/-- ASCII lower-casing of a string. -/
def asciiLower (s : String) : String := ⟨s.data.map lowerChar⟩

/-- Split a character list at its first colon: characters before, characters
after.  none when there is no colon. -/
def splitColon : List Char → Option (List Char × List Char)
  | [] => none
  | c :: rest =>
    if c = ':' then some ([], rest)
    else
      match splitColon rest with
      | none => none
      | some (pre, post) => some (c :: pre, post)

/-- Split an authority-plus-path character list into host and path. -/
def splitHostPath (cs : List Char) : String × String :=
  (⟨cs.takeWhile (fun c => c ≠ '/')⟩, ⟨cs.dropWhile (fun c => c ≠ '/')⟩)

/-- Model of net/url.Parse on the URL shapes this program exercises:
scheme://host/path parses into its components (scheme lower-cased), a
leading colon is the missing protocol scheme error, a colon-free string is
a relative path, and any other scheme:rest form keeps rest as the path. -/
def parseURL (s : String) : Except String GoURL :=
  match splitColon s.data with
  | none => .ok ⟨"", "", s⟩
  | some (pre, post) =>
    if pre = [] then .error ("missing protocol scheme")
    else if post.take 2 = ['/', '/'] then
      let hp := splitHostPath (post.drop 2)
      .ok ⟨asciiLower ⟨pre⟩, hp.1, hp.2⟩
    else .ok ⟨asciiLower ⟨pre⟩, "", ⟨post⟩⟩

/-- The backend selected by NewImageOpenSaver. -/
inductive Backend where
  | fs
  | s3
deriving DecidableEq

/-- NewImageOpenSaver: dispatch on the URL scheme; any scheme other than
file or s3 yields imageOpenSaverError carrying the URL. -/
def newImageOpenSaver (u : GoURL) : Except GoError Backend :=
  if u.scheme = "file" then .ok .fs
  else if u.scheme = "s3" then .ok .s3
  else .error (.openSaverErr u)

/-- Walk a reversed character list looking for the extension: models
filepath.Ext (suffix beginning at the final dot of the final
slash-separated element). -/
def goExtAux : List Char → List Char → String
  | [], _ => ("")
  | c :: rest, acc =>
    if c = '/' then ("")
    else if c = '.' then ⟨'.' :: acc⟩
    else goExtAux rest (c :: acc)

/-- filepath.Ext. -/
def goExt (s : String) : String := goExtAux s.data.reverse []

/-- filepath.Base on the path shapes used here: last slash-separated
element, trailing slashes removed, "." for empty and "/" for all-slash
paths. -/
def goBase (s : String) : String :=
  if s = "" then (".")
  else
    let r := s.data.reverse.dropWhile (fun c => c = '/')
    if r = [] then ("/") else ⟨(r.takeWhile (fun c => c ≠ '/')).reverse⟩

/-- strings.TrimSuffix. -/
def goTrimSuffix (s suf : String) : String :=
  if suf.data.isSuffixOf s.data then ⟨s.data.take (s.data.length - suf.data.length)⟩ else s

/-- filepath.Join of a folder path and one clean element (no dot segments
or doubled slashes, the shapes produced here). -/
def goJoin (a b : String) : String :=
  if a = "" then b
  else if a.data.getLast? = some '/' then a ++ b
  else a ++ "/" ++ b

/-- The thumbnail file name composed by thumbURL when no explicit
destination is given: base plus _c min-max coordinates when a crop
rectangle is present, bare base when width and height are both zero
(extension dropped), base plus _s width x height otherwise; the
lower-cased source extension is appended in the first and third shapes. -/
def thumbName (baseName ext : String) (opt : ThumbnailOpt) : String :=
  match opt.rect with
  | some r =>
    baseName ++ "_c" ++ toString r.min.1 ++ "-" ++ toString r.min.2 ++ "-" ++
      toString r.max.1 ++ "-" ++ toString r.max.2 ++ "_s" ++ toString opt.width ++
      "x" ++ toString opt.height ++ ext
  | none =>
    if opt.width = 0 ∧ opt.height = 0 then baseName
    else baseName ++ "_s" ++ toString opt.width ++ "x" ++ toString opt.height ++ ext

/-- ThumbnailerMessage.thumbURL: with no explicit destination, parse the
destination folder, strip the source extension from the base name, and
join the composed file name under the folder path; with an explicit
destination, parse and return it verbatim. -/
def thumbURL (tm : ThumbnailerMessage) (baseName : String) (opt : ThumbnailOpt) :
    Except GoError GoURL :=
  if opt.dstImage = "" then
    match parseURL tm.dstFolder with
    | .error e => .error (.parseErr e)
    | .ok fURL =>
      let ext := goExt tm.srcImage
      let base := goTrimSuffix baseName ext
      .ok ⟨fURL.scheme, fURL.host, goJoin fURL.path (thumbName base (asciiLower ext) opt)⟩
  else
    match parseURL opt.dstImage with
    | .error e => .error (.parseErr e)
    | .ok fURL => .ok fURL

/-- The componentwise maximum box computed by maxThumbnail's loop: every
option of the Job (with or without a crop rectangle) has its zero
dimensions resolved against the source dimensions, and the running maxima
are folded from (0,0). -/
def maxThumbBox (opts : List ThumbnailOpt) (srcW srcH : ℕ) : ℕ × ℕ :=
  opts.foldl
    (fun acc opt =>
      let p := resolveDims opt.width opt.height srcW srcH
      (max acc.1 p.1, max acc.2 p.2))
    (0, 0)

/-- ThumbnailerMessage.maxThumbnail: resize the source to the maximum box
over all options (source dimensions read as Bounds().Max.X/Y, the source
being zero-origin at every call site). -/
def maxThumbnail (opts : List ThumbnailOpt) (src : GoImage) : GoImage :=
  let srcW := (boundsMaxX src).toNat
  let srcH := (boundsMaxY src).toNat
  let box := maxThumbBox opts srcW srcH
  imagingResize src box.1 box.2

/-- Everything observable about one run of generateThumbnail: the
generated thumbnail image, the resolved destination (none when thumbURL
failed), the store write performed (if any), and the value sent on the
error channel — none models the goroutine crashing on the nil URL
dereference in NewImageOpenSaver after a thumbURL failure, which the code
only logs before continuing. -/
structure GenResult where
  thumb : GoImage
  url : Option GoURL
  saved : Option (GoURL × GoImage)
  sent : Option (Option GoError)
deriving DecidableEq

/-- ThumbnailerMessage.generateThumbnail: crop if requested, clone when
width and height are both zero or resize otherwise, re-resolve the zero
dimensions of the local option copy from the thumbnail bounds, compose the
destination URL, pick the backend and save.  A thumbURL error is only
logged; the nil URL then crashes NewImageOpenSaver (sent = none). -/
def generateThumbnail (tm : ThumbnailerMessage) (srcURL : GoURL)
    (saveErr : GoURL → GoImage → Option GoError) (img : GoImage)
    (opt : ThumbnailOpt) : GenResult :=
  let img1 :=
    match opt.rect with
    | some r => imagingCrop img r.newImageRect
    | none => img
  let thumbImg :=
    if opt.width = 0 ∧ opt.height = 0 then toNRGBA img1
    else imagingResize img1 opt.width opt.height
  let w1 := if opt.width = 0 then (boundsMaxX thumbImg).toNat else opt.width
  let h1 := if opt.height = 0 then (boundsMaxY thumbImg).toNat else opt.height
  let opt1 : ThumbnailOpt := ⟨opt.dstImage, opt.rect, w1, h1⟩
  match thumbURL tm (goBase srcURL.path) opt1 with
  | .error _ => ⟨thumbImg, none, none, none⟩
  | .ok u =>
    match newImageOpenSaver u with
    | .error e => ⟨thumbImg, some u, none, some (some e)⟩
    | .ok _ =>
      match saveErr u thumbImg with
      | some e => ⟨thumbImg, some u, none, some (some e)⟩
      | none => ⟨thumbImg, some u, some (u, thumbImg), some none⟩

/-- Outcome of one run of GenerateThumbnails: either a Job-level error
sent on the caller's channel before any option work (source parse, scheme,
or open failure), or the per-option results of the dispatched goroutines. -/
inductive JobRun where
  | jobError (e : GoError)
  | completed (steps : List GenResult)
deriving DecidableEq

/-- ThumbnailerMessage.GenerateThumbnails up to the dispatch of the
per-option goroutines: parse the source URL, pick its backend, open it,
normalise to NRGBA, compute the shared pre-resize when more than one
option is present, and run one unit per option — a crop-free option uses
the shared pre-resize when it exists, every other option the full
source. -/
def generateThumbnails (tm : ThumbnailerMessage)
    (openImg : GoURL → Except GoError GoImage)
    (saveErr : GoURL → GoImage → Option GoError) : JobRun :=
  match parseURL tm.srcImage with
  | .error e => .jobError (.parseErr e)
  | .ok sURL =>
    match newImageOpenSaver sURL with
    | .error e => .jobError e
    | .ok _ =>
      match openImg sURL with
      | .error e => .jobError e
      | .ok img0 =>
        let img := toNRGBA img0
        let maxThumb : Option GoImage :=
          if 1 < tm.opts.length then some (maxThumbnail tm.opts img) else none
        .completed (tm.opts.map (fun opt =>
          match maxThumb with
          | some mt =>
            if opt.rect = none then generateThumbnail tm sURL saveErr mt opt
            else generateThumbnail tm sURL saveErr img opt
          | none => generateThumbnail tm sURL saveErr img opt))

/-- The per-option results of a run (none for a Job-level abort). -/
def jobResults : JobRun → List GenResult
  | .jobError _ => []
  | .completed steps => steps

/-- The values actually sent on the internal error channel. -/
def sentErrors (steps : List GenResult) : List (Option GoError) :=
  steps.filterMap (fun r => r.sent)

/-- The collecting loop of GenerateThumbnails: receive one value per
option and keep the first non-nil error. -/
def firstErr (arrival : List (Option GoError)) : Option GoError :=
  arrival.findSome? id

/-- The single value GenerateThumbnails sends on the caller's channel:
the Job-level error, or the first error received from the per-option
goroutines (nil when all succeeded), the arrival order being scheduler
dependent. -/
def callerError (run : JobRun) (arrival : List (Option GoError)) : Option GoError :=
  match run with
  | .jobError e => some e
  | .completed _ => firstErr arrival

/-- The store writes performed during a run. -/
def savedWrites (run : JobRun) : List (GoURL × GoImage) :=
  (jobResults run).filterMap (fun r => r.saved)

/-- ThumbnailerMessage.DeleteImage: parse the source URL; os.Remove its
path for the file scheme (the returned path records the removal), an
explicit not-implemented error for every other scheme. -/
def deleteImage (tm : ThumbnailerMessage) : Except GoError String :=
  match parseURL tm.srcImage with
  | .error e => .error (.parseErr e)
  | .ok u =>
    if u.scheme = "file" then .ok u.path
    else .error (.ioErr ("DeleteImage is not implemented for " ++ tm.srcImage))

/-- thumbnailerHandler.HandleMessage (cmd/nsq_thumbnailer/main.go) after a
successful unmarshal: run GenerateThumbnails, wait for its single channel
value, return early on error, and otherwise delete the source when
DeleteSrc is set.  The second component records the removed source path,
none when no removal happened. -/
def handleMessage (tm : ThumbnailerMessage)
    (openImg : GoURL → Except GoError GoImage)
    (saveErr : GoURL → GoImage → Option GoError)
    (arrival : List (Option GoError)) : JobRun × Option String :=
  let run := generateThumbnails tm openImg saveErr
  match callerError run arrival with
  | some _ => (run, none)
  | none =>
    if tm.deleteSrc then
      match deleteImage tm with
      | .ok p => (run, some p)
      | .error _ => (run, none)
    else (run, none)

/-- The supported save formats of the local-file backend (the keys of the
formats map in thumbnailer.go). -/
def formats : List String := [".jpg", ".jpeg", ".png", ".tif", ".tiff", ".bmp", ".gif"]

/-- A local file system: association list from path to stored pixel
content (the encoded bytes are abstracted by the pixel grid). -/
abbrev FileSys := List (String × List (List Pixel))

/-- Overwrite or create one file. -/
def fsSetFile (fs : FileSys) (p : String) (v : List (List Pixel)) : FileSys :=
  (p, v) :: fs.filter (fun e => e.1 ≠ p)

/-- fsImageOpenSaver.Save: re-derive the format from the lower-cased
extension of the destination path; an unrecognised extension fails with
imaging.ErrUnsupportedFormat before os.Create, leaving the file system
untouched; otherwise the file is created and the encoded image written. -/
def fsSave (fs : FileSys) (path : String) (img : GoImage) :
    Except GoError Unit × FileSys :=
  let ext := asciiLower (goExt path)
  if ext ∈ formats then (.ok (), fsSetFile fs path img.pix)
  else (.error .unsupportedFormat, fs)

/-- Read one file from the model file system. -/
def fsGet (fs : FileSys) (p : String) : Option (List (List Pixel)) :=
  match fs with
  | [] => none
  | e :: t => if e.1 = p then some e.2 else fsGet t p

/-- The file system visible after a handled message: the per-option store
writes applied in dispatch order, then the source removal when it
happened. -/
def finalFS (fs0 : FileSys) (run : JobRun) (deleted : Option String) : FileSys :=
  let fs1 := (savedWrites run).foldl (fun fs w => fsSetFile fs w.1.path w.2.pix) fs0
  match deleted with
  | some p => fs1.filter (fun e => e.1 ≠ p)
  | none => fs1

/-- The box the spec's words prescribe for the shared pre-resize: the
componentwise maximum over exactly the Options without a crop rectangle
(each resolved against the original source dimensions). -/
def specCropFreeBox (opts : List ThumbnailOpt) (srcW srcH : ℕ) : ℕ × ℕ :=
  maxThumbBox (opts.filter (fun o => o.rect = none)) srcW srcH

/-- A 2×2 zero-origin NRGBA source image. -/
def exImg2 : GoImage :=
  ⟨0, 0, 2, 2, true,
    [[(1, 1, 1, 255), (2, 2, 2, 255)], [(3, 3, 3, 255), (4, 4, 4, 255)]]⟩

/-- A two-option Job whose first Option requests no crop and no resize. -/
def exTm2 : ThumbnailerMessage :=
  ⟨"file:///src/pic.jpg", false, "file:///tmp", [⟨"", none, 0, 0⟩, ⟨"", none, 1, 1⟩]⟩

/-- Open oracle returning the 2×2 source. -/
def exOpen2 : GoURL → Except GoError GoImage := fun _ => .ok exImg2

/-- Save oracle that always succeeds. -/
def exSaveOk : GoURL → GoImage → Option GoError := fun _ _ => none

/-- An 8×8 zero-origin NRGBA source image. -/
def exImg8 : GoImage := ⟨0, 0, 8, 8, true, List.replicate 8 (List.replicate 8 (0, 0, 0, 255))⟩

/-- A two-option Job: a cropped 4×4 Option next to a crop-free passthrough
Option. -/
def exTmC1 : ThumbnailerMessage :=
  ⟨"file:///src/pic.jpg", false, "file:///tmp",
    [⟨"", some ⟨(0, 0), (4, 4)⟩, 4, 4⟩, ⟨"", none, 0, 0⟩]⟩

/-- Open oracle returning the 8×8 source. -/
def exOpenC1 : GoURL → Except GoError GoImage := fun _ => .ok exImg8

/-- A single-option Job with the delete-source flag set. -/
def exTmC6 : ThumbnailerMessage :=
  ⟨"file:///src/pic.jpg", true, "file:///tmp", [⟨"", none, 1, 1⟩]⟩

/-- A 100×100 zero-origin NRGBA source image. -/
def exImg100 : GoImage :=
  ⟨0, 0, 100, 100, true, List.replicate 100 (List.replicate 100 (0, 0, 0, 255))⟩

/-- A single-option Job: crop to 50×20, then width 10 with derived height. -/
def exTmC3 : ThumbnailerMessage :=
  ⟨"file:///src/pic.jpg", false, "file:///tmp", [⟨"", some ⟨(0, 0), (50, 20)⟩, 10, 0⟩]⟩

/-- Open oracle returning the 100×100 source. -/
def exOpenC3 : GoURL → Except GoError GoImage := fun _ => .ok exImg100

/-- A source image named cat.jpg with a 100×100 Option, the naming example
of the spec. -/
def exTmC4 : ThumbnailerMessage :=
  ⟨"file:///data/cat.jpg", false, "file:///tmp", [⟨"", none, 100, 100⟩]⟩

/-- A two-option Job used to compare caller-visible outcomes. -/
def exTmC5 : ThumbnailerMessage :=
  ⟨"file:///src/pic.jpg", false, "file:///tmp", [⟨"", none, 1, 1⟩, ⟨"", none, 2, 2⟩]⟩

/-- Save oracle failing only for the 2×2 destination of exTmC5. -/
def exSaveFailSecond : GoURL → GoImage → Option GoError :=
  fun u _ => if u.path = "/tmp/pic_s2x2.jpg" then some (.ioErr ("disk full")) else none

/-- Save oracle failing for every destination. -/
def exSaveFailAll : GoURL → GoImage → Option GoError :=
  fun _ _ => some (.ioErr ("disk full"))

/-- A single-option Job whose destination folder is the malformed URL
":" (url.Parse: missing protocol scheme). -/
def exTmC9 : ThumbnailerMessage :=
  ⟨"file:///src/pic.jpg", false, ":", [⟨"", none, 1, 1⟩]⟩

end Thumbnailer

namespace Thumbnailer

/-- toNRGBA never changes the width. -/
theorem toNRGBA_width (img : GoImage) : (toNRGBA img).width = img.width := by
  unfold toNRGBA imagingClone
  split <;> rfl

/-- toNRGBA never changes the height. -/
theorem toNRGBA_height (img : GoImage) : (toNRGBA img).height = img.height := by
  unfold toNRGBA imagingClone
  split <;> rfl

/-- toNRGBA never changes the pixel content. -/
theorem toNRGBA_pix (img : GoImage) : (toNRGBA img).pix = img.pix := by
  unfold toNRGBA imagingClone
  split <;> rfl

/-- The result of toNRGBA is zero-origin in x. -/
theorem toNRGBA_minX (img : GoImage) : (toNRGBA img).minX = 0 := by
  unfold toNRGBA imagingClone
  split
  case isTrue h => exact h.1
  case isFalse h => rfl

/-- The result of toNRGBA is zero-origin in y. -/
theorem toNRGBA_minY (img : GoImage) : (toNRGBA img).minY = 0 := by
  unfold toNRGBA imagingClone
  split
  case isTrue h => exact h.2.1
  case isFalse h => rfl

/-- The result of toNRGBA is an NRGBA image. -/
theorem toNRGBA_isNRGBA (img : GoImage) : (toNRGBA img).isNRGBA = true := by
  unfold toNRGBA imagingClone
  split
  case isTrue h => exact h.2.2
  case isFalse h => rfl

/-- toNRGBA is the identity on zero-origin NRGBA images. -/
theorem toNRGBA_fix (img : GoImage) (h1 : img.minX = 0) (h2 : img.minY = 0)
    (h3 : img.isNRGBA = true) : toNRGBA img = img := by
  unfold toNRGBA
  rw [if_pos ⟨h1, h2, h3⟩]

/-- toNRGBA is idempotent. -/
theorem toNRGBA_idem (img : GoImage) : toNRGBA (toNRGBA img) = toNRGBA img :=
  toNRGBA_fix _ (toNRGBA_minX img) (toNRGBA_minY img) (toNRGBA_isNRGBA img)

/-- The derived dimension is at least one pixel. -/
theorem deriveDim_pos (a b c : ℕ) : 1 ≤ deriveDim a b c := le_max_left _ _

/-- Justification of the integer form of deriveDim: over exact rational
arithmetic it is exactly int(max(1, floor(a*b/c + 0.5))) for a positive
denominator. -/
theorem deriveDim_eq_floor (a b c : ℕ) (hc : 0 < c) :
    (deriveDim a b c : ℤ) = max 1 ⌊(a : ℚ) * b / c + 1 / 2⌋ := by
  have hc0 : (c : ℚ) ≠ 0 := by positivity
  have hrw : (a : ℚ) * b / c + 1 / 2 = ((2 * a * b + c : ℕ) : ℤ) / ((2 * c : ℕ) : ℚ) := by
    push_cast
    field_simp
    ring
  rw [deriveDim, hrw, Rat.floor_intCast_div_natCast]
  push_cast [Int.ofNat_ediv]
  rfl

/-- The resolved width is at least one pixel. -/
theorem resolveDims_fst_pos (w h sW sH : ℕ) : 1 ≤ (resolveDims w h sW sH).1 := by
  unfold resolveDims
  dsimp only
  split
  · exact deriveDim_pos _ _ _
  · omega

/-- The resolved height is at least one pixel. -/
theorem resolveDims_snd_pos (w h sW sH : ℕ) : 1 ≤ (resolveDims w h sW sH).2 := by
  unfold resolveDims
  dsimp only
  split
  · exact deriveDim_pos _ _ _
  · omega

/-- Resolution leaves explicitly positive dimensions unchanged. -/
theorem resolveDims_of_pos (w h sW sH : ℕ) (hw : w ≠ 0) (hh : h ≠ 0) :
    resolveDims w h sW sH = (w, h) := by
  unfold resolveDims
  dsimp only
  rw [if_neg hw, if_neg hh]

/-- Dimensions of a non-degenerate resize are the resolved dimensions. -/
theorem imagingResize_dims (img : GoImage) (w h : ℕ) (hw : 0 < img.width)
    (hh : 0 < img.height) (hwh : ¬(w = 0 ∧ h = 0)) :
    (imagingResize img w h).width = (resolveDims w h img.width img.height).1 ∧
      (imagingResize img w h).height = (resolveDims w h img.width img.height).2 := by
  unfold imagingResize
  rw [if_neg hwh, if_neg (by omega : ¬(img.width = 0 ∨ img.height = 0))]
  exact ⟨rfl, rfl⟩

/-- A resize output is zero-origin NRGBA. -/
theorem imagingResize_canonical (img : GoImage) (w h : ℕ) :
    (imagingResize img w h).minX = 0 ∧ (imagingResize img w h).minY = 0 ∧
      (imagingResize img w h).isNRGBA = true := by
  unfold imagingResize emptyNRGBA
  split
  · exact ⟨rfl, rfl, rfl⟩
  · split
    · exact ⟨rfl, rfl, rfl⟩
    · exact ⟨rfl, rfl, rfl⟩

/-- The maximum-box fold never decreases the accumulator. -/
theorem maxThumbBox_le (opts : List ThumbnailOpt) (sW sH : ℕ) (acc : ℕ × ℕ) :
    acc.1 ≤ (opts.foldl
        (fun a opt =>
          (max a.1 (resolveDims opt.width opt.height sW sH).1,
            max a.2 (resolveDims opt.width opt.height sW sH).2)) acc).1 ∧
      acc.2 ≤ (opts.foldl
        (fun a opt =>
          (max a.1 (resolveDims opt.width opt.height sW sH).1,
            max a.2 (resolveDims opt.width opt.height sW sH).2)) acc).2 := by
  induction opts generalizing acc with
  | nil => exact ⟨le_refl _, le_refl _⟩
  | cons o os ih =>
    simp only [List.foldl_cons]
    exact ⟨le_trans (le_max_left _ _)
        (ih (max acc.1 (resolveDims o.width o.height sW sH).1,
          max acc.2 (resolveDims o.width o.height sW sH).2)).1,
      le_trans (le_max_left _ _)
        (ih (max acc.1 (resolveDims o.width o.height sW sH).1,
          max acc.2 (resolveDims o.width o.height sW sH).2)).2⟩

/-- The maximum box of a non-empty option list is at least 1×1. -/
theorem maxThumbBox_pos (o : ThumbnailOpt) (opts : List ThumbnailOpt) (sW sH : ℕ) :
    1 ≤ (maxThumbBox (o :: opts) sW sH).1 ∧ 1 ≤ (maxThumbBox (o :: opts) sW sH).2 := by
  constructor
  · exact le_trans (le_trans (resolveDims_fst_pos o.width o.height sW sH)
      (le_max_right 0 _)) (maxThumbBox_le opts sW sH
        (max 0 (resolveDims o.width o.height sW sH).1,
          max 0 (resolveDims o.width o.height sW sH).2)).1
  · exact le_trans (le_trans (resolveDims_snd_pos o.width o.height sW sH)
      (le_max_right 0 _)) (maxThumbBox_le opts sW sH
        (max 0 (resolveDims o.width o.height sW sH).1,
          max 0 (resolveDims o.width o.height sW sH).2)).2

/-- On a non-empty option list and a zero-origin positive source, the
shared pre-resize has exactly the maximum-box dimensions. -/
theorem maxThumbnail_dims (opts : List ThumbnailOpt) (src : GoImage)
    (hne : opts ≠ []) (h1 : src.minX = 0) (h2 : src.minY = 0)
    (hw : 0 < src.width) (hh : 0 < src.height) :
    (maxThumbnail opts src).width = (maxThumbBox opts src.width src.height).1 ∧
      (maxThumbnail opts src).height = (maxThumbBox opts src.width src.height).2 := by
  obtain ⟨o, os, rfl⟩ : ∃ o os, opts = o :: os := by
    cases opts with
    | nil => exact absurd rfl hne
    | cons o os => exact ⟨o, os, rfl⟩
  have hbox := maxThumbBox_pos o os src.width src.height
  unfold maxThumbnail
  have hX : (boundsMaxX src).toNat = src.width := by
    unfold boundsMaxX
    rw [h1]
    simp
  have hY : (boundsMaxY src).toNat = src.height := by
    unfold boundsMaxY
    rw [h2]
    simp
  rw [hX, hY]
  have hd := imagingResize_dims src (maxThumbBox (o :: os) src.width src.height).1
    (maxThumbBox (o :: os) src.width src.height).2 hw hh (by omega)
  rw [hd.1, hd.2, resolveDims_of_pos _ _ _ _ (by omega) (by omega)]
  exact ⟨rfl, rfl⟩

end Thumbnailer

namespace Thumbnailer

/-- Unfolding of a run whose source parses, resolves and opens: one unit
per option, the shared pre-resize exactly for crop-free options of
multi-option Jobs. -/
theorem generateThumbnails_ok (tm : ThumbnailerMessage)
    (openImg : GoURL → Except GoError GoImage)
    (saveErr : GoURL → GoImage → Option GoError)
    (sURL : GoURL) (bk : Backend) (img0 : GoImage)
    (hp : parseURL tm.srcImage = .ok sURL)
    (hn : newImageOpenSaver sURL = .ok bk)
    (ho : openImg sURL = .ok img0) :
    generateThumbnails tm openImg saveErr =
      .completed (tm.opts.map (fun opt =>
        if 1 < tm.opts.length ∧ opt.rect = none then
          generateThumbnail tm sURL saveErr (maxThumbnail tm.opts (toNRGBA img0)) opt
        else generateThumbnail tm sURL saveErr (toNRGBA img0) opt)) := by
  unfold generateThumbnails
  rw [hp]
  dsimp only
  rw [hn]
  dsimp only
  rw [ho]
  dsimp only
  by_cases hlen : 1 < tm.opts.length
  · simp only [if_pos hlen]
    congr 1
    apply List.map_congr_left
    intro opt _
    by_cases hr : opt.rect = none
    · simp [hr, hlen]
    · simp [hr]
  · simp only [if_neg hlen]
    congr 1
    apply List.map_congr_left
    intro opt _
    simp [hlen]

/-- The collecting loop skips a nil report. -/
theorem firstErr_cons_none (t : List (Option GoError)) :
    firstErr (none :: t) = firstErr t := rfl

/-- The collecting loop keeps the first non-nil report. -/
theorem firstErr_cons_some (e : GoError) (t : List (Option GoError)) :
    firstErr (some e :: t) = some e := rfl

/-- The collected error is nil exactly when every report was nil. -/
theorem firstErr_eq_none_iff (l : List (Option GoError)) :
    firstErr l = none ↔ ∀ o ∈ l, o = none := by
  induction l with
  | nil => simp [firstErr, List.findSome?]
  | cons a t ih =>
    cases a with
    | none => simpa [firstErr_cons_none] using ih
    | some e => simp [firstErr_cons_some]

/-- The collected error is non-nil exactly when some report failed. -/
theorem firstErr_ne_none_iff (l : List (Option GoError)) :
    firstErr l ≠ none ↔ ∃ e, some e ∈ l := by
  rw [Ne, firstErr_eq_none_iff]
  constructor
  · intro h
    push_neg at h
    obtain ⟨o, ho, hne⟩ := h
    cases o with
    | none => exact absurd rfl hne
    | some e => exact ⟨e, ho⟩
  · rintro ⟨e, he⟩ hall
    exact Option.noConfusion (hall _ he)

/-- A value is among the sent errors exactly when some unit sent it. -/
theorem mem_sentErrors (steps : List GenResult) (o : Option GoError) :
    o ∈ sentErrors steps ↔ ∃ r ∈ steps, r.sent = some o := by
  unfold sentErrors
  simp [List.mem_filterMap]

/-- Writing a file makes it readable. -/
theorem fsGet_fsSetFile_self (fs : FileSys) (p : String) (v : List (List Pixel)) :
    fsGet (fsSetFile fs p v) p = some v := by
  unfold fsSetFile fsGet
  rw [if_pos rfl]

/-- Writing a file does not touch other paths. -/
theorem fsGet_fsSetFile_ne (fs : FileSys) (p q : String) (v : List (List Pixel))
    (h : q ≠ p) : fsGet (fsSetFile fs p v) q = fsGet fs q := by
  unfold fsSetFile
  rw [fsGet, if_neg (fun hc => h hc.symm)]
  induction fs with
  | nil => rfl
  | cons e t ih =>
    by_cases hp : e.1 = p
    · rw [List.filter_cons_of_neg (by simp [hp])]
      rw [ih]
      have hne : ¬ e.1 = q := fun hc => h (hc ▸ hp)
      rw [fsGet, if_neg hne]
    · rw [List.filter_cons_of_pos (by simp [hp])]
      by_cases hq : e.1 = q
      · rw [fsGet, if_pos hq, fsGet, if_pos hq]
      · rw [fsGet, if_neg hq, fsGet, if_neg hq, ih]

/-- Removing one path does not touch other paths. -/
theorem fsGet_filter_ne (fs : FileSys) (p pth : String) (h : pth ≠ p) :
    fsGet (fs.filter (fun e => e.1 ≠ p)) pth = fsGet fs pth := by
  induction fs with
  | nil => rfl
  | cons e t ih =>
    by_cases hp : e.1 = p
    · rw [List.filter_cons_of_neg (by simp [hp])]
      have hne : ¬ e.1 = pth := fun hc => h (hc ▸ hp)
      rw [ih, fsGet, if_neg hne]
    · rw [List.filter_cons_of_pos (by simp [hp])]
      by_cases hq : e.1 = pth
      · rw [fsGet, if_pos hq, fsGet, if_pos hq]
      · rw [fsGet, if_neg hq, fsGet, if_neg hq, ih]

/-- A fold of writes leaves unwritten paths untouched. -/
theorem writesFold_skip (ws : List (GoURL × GoImage)) (fs : FileSys) (pth : String)
    (h : pth ∉ ws.map (fun w => w.1.path)) :
    fsGet (ws.foldl (fun fs w => fsSetFile fs w.1.path w.2.pix) fs) pth = fsGet fs pth := by
  induction ws generalizing fs with
  | nil => rfl
  | cons w rest ih =>
    rw [List.foldl_cons]
    have h1 : pth ∉ rest.map (fun w => w.1.path) := by
      intro hc
      exact h (List.mem_cons_of_mem _ hc)
    have h2 : pth ≠ w.1.path := by
      intro hc
      exact h (hc ▸ List.mem_cons_self _ _)
    rw [ih _ h1, fsGet_fsSetFile_ne _ _ _ _ h2]

/-- Every path written by a fold of writes is present afterwards. -/
theorem writesFold_present (ws : List (GoURL × GoImage)) (fs : FileSys) (pth : String)
    (h : pth ∈ ws.map (fun w => w.1.path)) :
    (fsGet (ws.foldl (fun fs w => fsSetFile fs w.1.path w.2.pix) fs) pth).isSome = true := by
  induction ws generalizing fs with
  | nil => simp at h
  | cons w rest ih =>
    rw [List.foldl_cons]
    by_cases hr : pth ∈ rest.map (fun w => w.1.path)
    · exact ih _ hr
    · have : pth = w.1.path := by
        rcases List.mem_cons.mp h with h0 | h0
        · exact h0
        · exact absurd h0 hr
      rw [writesFold_skip rest _ _ hr, this, fsGet_fsSetFile_self]
      rfl

end Thumbnailer

namespace Thumbnailer

/-- The generated thumbnail image only depends on the crop/resize stage:
crop if requested, then clone on a fully zero request or resize
otherwise. -/
theorem generateThumbnail_thumb (tm : ThumbnailerMessage) (sURL : GoURL)
    (saveErr : GoURL → GoImage → Option GoError) (img : GoImage) (opt : ThumbnailOpt) :
    (generateThumbnail tm sURL saveErr img opt).thumb =
      (if opt.width = 0 ∧ opt.height = 0 then
        toNRGBA (match opt.rect with
          | some r => imagingCrop img r.newImageRect
          | none => img)
      else imagingResize (match opt.rect with
          | some r => imagingCrop img r.newImageRect
          | none => img) opt.width opt.height) := by
  unfold generateThumbnail
  dsimp only
  split
  · rfl
  · split
    · rfl
    · split
      · rfl
      · rfl

/-- Resolution with a positive width and a zero height derives the height
from the width. -/
theorem resolveDims_height_zero (w sW sH : ℕ) (hw : w ≠ 0) :
    resolveDims w 0 sW sH = (w, deriveDim w sH sW) := by
  unfold resolveDims
  dsimp only
  rw [if_neg hw, if_pos rfl]

/-- Resolution with a zero width and a positive height derives the width
from the height. -/
theorem resolveDims_width_zero (h sW sH : ℕ) (hh : h ≠ 0) :
    resolveDims 0 h sW sH = (deriveDim h sW sH, h) := by
  unfold resolveDims
  dsimp only
  rw [if_pos rfl, if_neg hh]

/-- The shared pre-resize is zero-origin NRGBA. -/
theorem maxThumbnail_canonical (opts : List ThumbnailOpt) (src : GoImage) :
    (maxThumbnail opts src).minX = 0 ∧ (maxThumbnail opts src).minY = 0 ∧
      (maxThumbnail opts src).isNRGBA = true := by
  unfold maxThumbnail
  exact imagingResize_canonical src _ _

end Thumbnailer

namespace Thumbnailer

/-- C8: for every save through the local-file backend whose destination
path's lower-cased extension is not one of .jpg, .jpeg, .png, .tif, .tiff,
.bmp, .gif, the save fails with the unsupported-format error and the file
system is left completely unchanged (no file created or modified). -/
theorem c8_fs_save_unsupported_format (fs : FileSys) (path : String) (img : GoImage)
    (h : asciiLower (goExt path) ∉ formats) :
    fsSave fs path img = (.error .unsupportedFormat, fs) := by
  unfold fsSave
  dsimp only
  rw [if_neg h]

/-- Witness for C8 at the concrete destination /tmp/cat.txt. -/
theorem c8_fs_save_unsupported_format_witness :
    asciiLower (goExt ("/tmp/cat.txt")) ∉ formats ∧
      fsSave [] ("/tmp/cat.txt") exImg2 = (.error .unsupportedFormat, []) :=
  ⟨by decide, c8_fs_save_unsupported_format [] ("/tmp/cat.txt") exImg2 (by decide)⟩

/-- C9: on a Job whose destination folder is malformed, thumbURL fails
with the parse error, but the option's unit sends no Result at all
(sent = none models the crash on the nil URL that the code dereferences
after merely logging the error) and performs no store write — the failure
is not captured as a PathError in the Option's Result as the spec
requires. -/
theorem c9_path_error_not_captured :
    thumbURL exTmC9 ("pic.jpg") ⟨"", none, 1, 1⟩ =
        .error (.parseErr ("missing protocol scheme")) ∧
      (jobResults (generateThumbnails exTmC9 exOpen2 exSaveOk)).map
          (fun r => (r.sent, r.saved, r.url)) = [(none, none, none)] := by
  decide

/-- C10: toNRGBA is the identity on zero-origin NRGBA images, returns a
zero-origin NRGBA clone with equal pixel content for every other image, is
idempotent, and the width=0,height=0 generation branch returns an image
value equal to its input. -/
theorem c10_toNRGBA_identity_clone (img : GoImage) :
    (img.minX = 0 → img.minY = 0 → img.isNRGBA = true → toNRGBA img = img) ∧
      (¬(img.minX = 0 ∧ img.minY = 0 ∧ img.isNRGBA = true) →
        toNRGBA img = ⟨0, 0, img.width, img.height, true, img.pix⟩) ∧
      toNRGBA (toNRGBA img) = toNRGBA img ∧
      (∀ (tm : ThumbnailerMessage) (sURL : GoURL)
        (saveErr : GoURL → GoImage → Option GoError) (opt : ThumbnailOpt),
        opt.rect = none → opt.width = 0 → opt.height = 0 →
        img.minX = 0 → img.minY = 0 → img.isNRGBA = true →
        (generateThumbnail tm sURL saveErr img opt).thumb = img) := by
  refine ⟨toNRGBA_fix img, ?_, toNRGBA_idem img, ?_⟩
  · intro h
    unfold toNRGBA imagingClone
    rw [if_neg h]
  · intro tm sURL saveErr opt hr hw hh h1 h2 h3
    rw [generateThumbnail_thumb, if_pos ⟨hw, hh⟩, hr]
    exact toNRGBA_fix img h1 h2 h3

/-- Witness for C10 at the concrete 2×2 NRGBA image. -/
theorem c10_toNRGBA_identity_clone_witness :
    toNRGBA exImg2 = exImg2 ∧
      (generateThumbnail exTm2 ⟨"file", "", "/src/pic.jpg"⟩ exSaveOk exImg2
        ⟨"", none, 0, 0⟩).thumb = exImg2 :=
  ⟨(c10_toNRGBA_identity_clone exImg2).1 rfl rfl rfl,
    (c10_toNRGBA_identity_clone exImg2).2.2.2 exTm2 ⟨"file", "", "/src/pic.jpg"⟩
      exSaveOk ⟨"", none, 0, 0⟩ rfl rfl rfl rfl rfl rfl⟩

/-- C7: a source URI with a scheme other than file or s3 aborts the Job
with the single scheme error carrying the offending URL, before any option
work, with zero per-option Results, and any other source-open failure is
likewise Job-terminal with zero per-option Results. -/
theorem c7_unsupported_scheme_job_terminal (tm : ThumbnailerMessage)
    (openImg : GoURL → Except GoError GoImage)
    (saveErr : GoURL → GoImage → Option GoError) (u : GoURL) :
    (parseURL tm.srcImage = .ok u → u.scheme ≠ "file" → u.scheme ≠ "s3" →
      generateThumbnails tm openImg saveErr = .jobError (.openSaverErr u) ∧
        jobResults (generateThumbnails tm openImg saveErr) = []) ∧
    (∀ (bk : Backend) (e : GoError), parseURL tm.srcImage = .ok u →
      newImageOpenSaver u = .ok bk → openImg u = .error e →
      generateThumbnails tm openImg saveErr = .jobError e ∧
        jobResults (generateThumbnails tm openImg saveErr) = []) := by
  constructor
  · intro hp h1 h2
    have hn : newImageOpenSaver u = .error (.openSaverErr u) := by
      unfold newImageOpenSaver
      rw [if_neg h1, if_neg h2]
    have hrun : generateThumbnails tm openImg saveErr = .jobError (.openSaverErr u) := by
      unfold generateThumbnails
      rw [hp]
      dsimp only
      rw [hn]
    exact ⟨hrun, by rw [hrun]; rfl⟩
  · intro bk e hp hn ho
    have hrun : generateThumbnails tm openImg saveErr = .jobError e := by
      unfold generateThumbnails
      rw [hp]
      dsimp only
      rw [hn]
      dsimp only
      rw [ho]
    exact ⟨hrun, by rw [hrun]; rfl⟩

/-- Witness for C7 at the concrete source ftp://example.com/a.jpg and at a
concrete open failure. -/
theorem c7_unsupported_scheme_job_terminal_witness :
    (generateThumbnails ⟨"ftp://example.com/a.jpg", false, "file:///tmp", []⟩ exOpen2 exSaveOk =
        .jobError (.openSaverErr ⟨"ftp", "example.com", "/a.jpg"⟩) ∧
      jobResults (generateThumbnails ⟨"ftp://example.com/a.jpg", false, "file:///tmp", []⟩
        exOpen2 exSaveOk) = []) ∧
    (generateThumbnails ⟨"file:///gone.jpg", false, "file:///tmp", []⟩
        (fun _ => .error (.ioErr ("no such file"))) exSaveOk =
        .jobError (.ioErr ("no such file")) ∧
      jobResults (generateThumbnails ⟨"file:///gone.jpg", false, "file:///tmp", []⟩
        (fun _ => .error (.ioErr ("no such file"))) exSaveOk) = []) :=
  ⟨(c7_unsupported_scheme_job_terminal ⟨"ftp://example.com/a.jpg", false, "file:///tmp", []⟩
      exOpen2 exSaveOk ⟨"ftp", "example.com", "/a.jpg"⟩).1 (by decide) (by decide) (by decide),
    (c7_unsupported_scheme_job_terminal ⟨"file:///gone.jpg", false, "file:///tmp", []⟩
      (fun _ => .error (.ioErr ("no such file"))) exSaveOk ⟨"file", "", "/gone.jpg"⟩).2
      .fs (.ioErr ("no such file")) (by decide) (by decide) rfl⟩

end Thumbnailer

namespace Thumbnailer

/-- C4: with no explicit destination, thumbURL keeps the destination
folder's scheme and host and joins under its path the composed file name:
base followed by _c and the four crop coordinates and _s width x height
and the lower-cased source extension when a crop rectangle is present, the
bare base (extension dropped) when the resolved width and height are both
zero, and base _s width x height extension otherwise, base being the
source file name without its extension; the spec's concrete example yields
/tmp/cat_s100x100.jpg, and an explicit destination is parsed and returned
verbatim. -/
theorem c4_thumb_url_naming (tm : ThumbnailerMessage) (baseName : String)
    (opt : ThumbnailOpt) (fURL : GoURL) :
    (opt.dstImage = "" → parseURL tm.dstFolder = .ok fURL →
      thumbURL tm baseName opt =
        .ok ⟨fURL.scheme, fURL.host,
          goJoin fURL.path
            (thumbName (goTrimSuffix baseName (goExt tm.srcImage))
              (asciiLower (goExt tm.srcImage)) opt)⟩) ∧
    (∀ (base ext : String) (r : GoRectangle), opt.rect = some r →
      thumbName base ext opt =
        base ++ "_c" ++ toString r.min.1 ++ "-" ++ toString r.min.2 ++ "-" ++
          toString r.max.1 ++ "-" ++ toString r.max.2 ++ "_s" ++
          toString opt.width ++ "x" ++ toString opt.height ++ ext) ∧
    (∀ base ext : String, opt.rect = none → opt.width = 0 → opt.height = 0 →
      thumbName base ext opt = base) ∧
    (∀ base ext : String, opt.rect = none → ¬(opt.width = 0 ∧ opt.height = 0) →
      thumbName base ext opt =
        base ++ "_s" ++ toString opt.width ++ "x" ++ toString opt.height ++ ext) ∧
    (∀ d : GoURL, opt.dstImage ≠ "" → parseURL opt.dstImage = .ok d →
      thumbURL tm baseName opt = .ok d) ∧
    thumbURL exTmC4 ("cat.jpg") ⟨"", none, 100, 100⟩ =
      .ok ⟨"file", "", "/tmp/cat_s100x100.jpg"⟩ := by
  refine ⟨?_, ?_, ?_, ?_, ?_, by decide⟩
  · intro h0 hp
    unfold thumbURL
    rw [if_pos h0, hp]
  · intro base ext r hr
    unfold thumbName
    rw [hr]
  · intro base ext hr hw hh
    unfold thumbName
    rw [hr]
    dsimp only
    rw [if_pos ⟨hw, hh⟩]
  · intro base ext hr hn
    unfold thumbName
    rw [hr]
    dsimp only
    rw [if_neg hn]
  · intro d h0 hp
    unfold thumbURL
    rw [if_neg h0, hp]

/-- Witness for C4 at the spec's concrete naming example. -/
theorem c4_thumb_url_naming_witness :
    thumbURL exTmC4 ("cat.jpg") ⟨"", none, 100, 100⟩ =
      .ok ⟨"file", "",
        goJoin ("/tmp")
          (thumbName (goTrimSuffix ("cat.jpg") (goExt exTmC4.srcImage))
            (asciiLower (goExt exTmC4.srcImage)) ⟨"", none, 100, 100⟩)⟩ :=
  (c4_thumb_url_naming exTmC4 ("cat.jpg") ⟨"", none, 100, 100⟩ ⟨"file", "", "/tmp"⟩).1
    rfl (by decide)

/-- C1 counterexample: in the two-option Job exTmC1 (one cropped 4×4
Option, one crop-free passthrough Option) over an 8×8 source, the
component-wise maximum over the crop-free Options alone is (1,1), yet the
crop-free Option's output has dimensions 4×4: it was generated from a
shared pre-resize whose box also counted the cropped Option. -/
theorem c1_counterexample :
    1 < exTmC1.opts.length ∧
      specCropFreeBox exTmC1.opts exImg8.width exImg8.height = (1, 1) ∧
      ((jobResults (generateThumbnails exTmC1 exOpenC1 exSaveOk)).map
        (fun r => (r.thumb.width, r.thumb.height))).get? 1 = some (4, 4) := by
  decide

/-- C1 amended: the shared pre-resize of a multi-option Job is the source
resized to the component-wise maximum of the resolved dimensions over all
of the Job's Options, cropped ones included; crop-free Options are
generated from it, cropped Options from the full-resolution canonical
source, and a single-option Job computes no shared pre-resize. -/
theorem c1_shared_preresize_box (tm : ThumbnailerMessage)
    (openImg : GoURL → Except GoError GoImage)
    (saveErr : GoURL → GoImage → Option GoError)
    (sURL : GoURL) (bk : Backend) (img0 : GoImage)
    (hp : parseURL tm.srcImage = .ok sURL)
    (hn : newImageOpenSaver sURL = .ok bk)
    (ho : openImg sURL = .ok img0) :
    (1 < tm.opts.length →
      generateThumbnails tm openImg saveErr =
        .completed (tm.opts.map (fun opt =>
          if opt.rect = none then
            generateThumbnail tm sURL saveErr (maxThumbnail tm.opts (toNRGBA img0)) opt
          else generateThumbnail tm sURL saveErr (toNRGBA img0) opt))) ∧
    (1 < tm.opts.length → 0 < img0.width → 0 < img0.height →
      (maxThumbnail tm.opts (toNRGBA img0)).width =
          (maxThumbBox tm.opts img0.width img0.height).1 ∧
        (maxThumbnail tm.opts (toNRGBA img0)).height =
          (maxThumbBox tm.opts img0.width img0.height).2) ∧
    (∀ o : ThumbnailOpt, tm.opts = [o] →
      generateThumbnails tm openImg saveErr =
        .completed [generateThumbnail tm sURL saveErr (toNRGBA img0) o]) := by
  refine ⟨?_, ?_, ?_⟩
  · intro hlen
    rw [generateThumbnails_ok tm openImg saveErr sURL bk img0 hp hn ho]
    congr 1
    apply List.map_congr_left
    intro opt _
    by_cases hr : opt.rect = none
    · rw [if_pos hr, if_pos ⟨hlen, hr⟩]
    · rw [if_neg hr, if_neg (fun hc => hr hc.2)]
  · intro hlen hw hh
    have hne : tm.opts ≠ [] := by
      intro hc
      rw [hc] at hlen
      exact absurd hlen (by decide)
    have hd := maxThumbnail_dims tm.opts (toNRGBA img0) hne (toNRGBA_minX img0)
      (toNRGBA_minY img0) (by rw [toNRGBA_width]; exact hw)
      (by rw [toNRGBA_height]; exact hh)
    rw [toNRGBA_width, toNRGBA_height] at hd
    exact hd
  · intro o hopts
    rw [generateThumbnails_ok tm openImg saveErr sURL bk img0 hp hn ho, hopts]
    simp only [List.map_cons, List.map_nil]
    rw [if_neg (by simp)]

/-- Witness for C1 amended at the concrete two-option Job exTmC1. -/
theorem c1_shared_preresize_box_witness :
    (maxThumbnail exTmC1.opts (toNRGBA exImg8)).width =
        (maxThumbBox exTmC1.opts exImg8.width exImg8.height).1 ∧
      (maxThumbnail exTmC1.opts (toNRGBA exImg8)).height =
        (maxThumbBox exTmC1.opts exImg8.width exImg8.height).2 :=
  (c1_shared_preresize_box exTmC1 exOpenC1 exSaveOk ⟨"file", "", "/src/pic.jpg"⟩ .fs exImg8
    (by decide) (by decide) rfl).2.1 (by decide) (by decide) (by decide)

end Thumbnailer

namespace Thumbnailer

/-- C2 counterexample: in the two-option Job exTm2, the Option with
width=0, height=0 and no crop is generated from the shared pre-resize and
its output is 1×1, not the 2×2 source dimensions. -/
theorem c2_counterexample :
    exTm2.opts.get? 0 = some ⟨"", none, 0, 0⟩ ∧
      exImg2.width = 2 ∧ exImg2.height = 2 ∧
      ((jobResults (generateThumbnails exTm2 exOpen2 exSaveOk)).map
        (fun r => (r.thumb.width, r.thumb.height))).get? 0 = some (1, 1) ∧
      ¬((1, 1) = (exImg2.width, exImg2.height)) := by
  decide

/-- C2 amended: an Option with width=0, height=0 and no crop reproduces
the dimensions of the image it operates on — the source's dimensions in a
single-option Job, but the shared pre-resize's dimensions in a Job with
more than one Option. -/
theorem c2_no_resize_dims (tm : ThumbnailerMessage)
    (openImg : GoURL → Except GoError GoImage)
    (saveErr : GoURL → GoImage → Option GoError)
    (sURL : GoURL) (bk : Backend) (img0 : GoImage)
    (hp : parseURL tm.srcImage = .ok sURL)
    (hn : newImageOpenSaver sURL = .ok bk)
    (ho : openImg sURL = .ok img0) :
    (∀ d : String, tm.opts = [⟨d, none, 0, 0⟩] →
      (jobResults (generateThumbnails tm openImg saveErr)).map
          (fun r => (r.thumb.width, r.thumb.height)) = [(img0.width, img0.height)]) ∧
    (∀ (i : ℕ) (d : String), 1 < tm.opts.length → tm.opts.get? i = some ⟨d, none, 0, 0⟩ →
      ((jobResults (generateThumbnails tm openImg saveErr)).map
          (fun r => (r.thumb.width, r.thumb.height))).get? i =
        some ((maxThumbnail tm.opts (toNRGBA img0)).width,
          (maxThumbnail tm.opts (toNRGBA img0)).height)) := by
  have hrun := generateThumbnails_ok tm openImg saveErr sURL bk img0 hp hn ho
  constructor
  · intro d hopts
    rw [hrun, hopts]
    simp only [List.map_cons, List.map_nil]
    rw [if_neg (by simp)]
    simp only [jobResults, List.map_cons, List.map_nil]
    rw [generateThumbnail_thumb, if_pos ⟨rfl, rfl⟩]
    dsimp only
    rw [toNRGBA_idem, toNRGBA_width, toNRGBA_height]
  · intro i d hlen hget
    rw [hrun]
    simp only [jobResults, List.map_map]
    rw [List.get?_map, hget]
    simp only [Option.map_some', Function.comp_apply]
    rw [if_pos ⟨hlen, trivial⟩]
    rw [generateThumbnail_thumb, if_pos ⟨rfl, rfl⟩]
    dsimp only
    have hc := maxThumbnail_canonical tm.opts (toNRGBA img0)
    rw [toNRGBA_fix _ hc.1 hc.2.1 hc.2.2]

/-- Witness for C2 amended at the concrete two-option Job exTm2. -/
theorem c2_no_resize_dims_witness :
    ((jobResults (generateThumbnails exTm2 exOpen2 exSaveOk)).map
        (fun r => (r.thumb.width, r.thumb.height))).get? 0 =
      some ((maxThumbnail exTm2.opts (toNRGBA exImg2)).width,
        (maxThumbnail exTm2.opts (toNRGBA exImg2)).height) :=
  (c2_no_resize_dims exTm2 exOpen2 exSaveOk ⟨"file", "", "/src/pic.jpg"⟩ .fs exImg2
    (by decide) (by decide) rfl).2 0 ("") (by decide) (by decide)

/-- C3 counterexample: the single-option Job exTmC3 crops its 100×100
source to 50×20 and requests width 10 with derived height; the claim's
formula against the original source dimensions gives 10, but the output
height is 4, derived against the cropped image. -/
theorem c3_counterexample :
    exTmC3.opts = [⟨"", some ⟨(0, 0), (50, 20)⟩, 10, 0⟩] ∧
      exImg100.width = 100 ∧ exImg100.height = 100 ∧
      deriveDim 10 exImg100.height exImg100.width = 10 ∧
      (jobResults (generateThumbnails exTmC3 exOpenC3 exSaveOk)).map
          (fun r => (r.thumb.width, r.thumb.height)) = [(10, 4)] ∧
      (4 : ℕ) ≠ 10 := by
  decide

/-- C3 amended: with exactly one of width/height zero, the non-zero
dimension is honored exactly and the derived dimension equals
max(1, round(other * opposite / same)) computed against the dimensions of
the image the Option operates on: the cropped image when a crop rectangle
is present, otherwise the image handed to the unit (the source in a
single-option Job, the shared pre-resize for crop-free Options of
multi-option Jobs) — which coincides with the original source exactly in
the crop-free single-option case. -/
theorem c3_aspect_derivation (tm : ThumbnailerMessage) (sURL : GoURL)
    (saveErr : GoURL → GoImage → Option GoError) (img : GoImage)
    (opt : ThumbnailOpt) (operand : GoImage)
    (hop : operand = (match opt.rect with
      | some r => imagingCrop img r.newImageRect
      | none => img))
    (hw : 0 < operand.width) (hh : 0 < operand.height) :
    (0 < opt.width → opt.height = 0 →
      (generateThumbnail tm sURL saveErr img opt).thumb.width = opt.width ∧
        (generateThumbnail tm sURL saveErr img opt).thumb.height =
          deriveDim opt.width operand.height operand.width) ∧
    (opt.width = 0 → 0 < opt.height →
      (generateThumbnail tm sURL saveErr img opt).thumb.height = opt.height ∧
        (generateThumbnail tm sURL saveErr img opt).thumb.width =
          deriveDim opt.height operand.width operand.height) := by
  constructor
  · intro hpw hz
    rw [generateThumbnail_thumb, if_neg (by omega), ← hop]
    have hdims := imagingResize_dims operand opt.width opt.height hw hh (by omega)
    rw [hz] at hdims
    rw [hz, hdims.1, hdims.2, resolveDims_height_zero _ _ _ (by omega)]
    exact ⟨rfl, rfl⟩
  · intro hz hph
    rw [generateThumbnail_thumb, if_neg (by omega), ← hop]
    have hdims := imagingResize_dims operand opt.width opt.height hw hh (by omega)
    rw [hz] at hdims
    rw [hz, hdims.1, hdims.2, resolveDims_width_zero _ _ _ (by omega)]
    exact ⟨rfl, rfl⟩

/-- Witness for C3 amended: a crop-free width 10 height 0 Option on the
100×100 source derives exactly round(10 * 100 / 100) = 10. -/
theorem c3_aspect_derivation_witness :
    (generateThumbnail exTmC3 ⟨"file", "", "/src/pic.jpg"⟩ exSaveOk exImg100
        ⟨"", none, 10, 0⟩).thumb.width = 10 ∧
      (generateThumbnail exTmC3 ⟨"file", "", "/src/pic.jpg"⟩ exSaveOk exImg100
        ⟨"", none, 10, 0⟩).thumb.height = deriveDim 10 exImg100.height exImg100.width :=
  (c3_aspect_derivation exTmC3 ⟨"file", "", "/src/pic.jpg"⟩ exSaveOk exImg100
    ⟨"", none, 10, 0⟩ exImg100 rfl (by decide) (by decide)).1 (by decide) rfl

end Thumbnailer

namespace Thumbnailer

/-- C5 counterexample: two runs of the same two-option Job in which
different Options fail (only the second, versus both) produce different
per-option results but the identical caller-visible value on the caller's
channel: individual Results, successes included, are not exposed to the
caller. -/
theorem c5_counterexample :
    callerError (generateThumbnails exTmC5 exOpen2 exSaveFailSecond)
        (sentErrors (jobResults (generateThumbnails exTmC5 exOpen2 exSaveFailSecond))) =
      callerError (generateThumbnails exTmC5 exOpen2 exSaveFailAll)
        (sentErrors (jobResults (generateThumbnails exTmC5 exOpen2 exSaveFailAll))) ∧
      sentErrors (jobResults (generateThumbnails exTmC5 exOpen2 exSaveFailSecond)) =
        [none, some (.ioErr ("disk full"))] ∧
      sentErrors (jobResults (generateThumbnails exTmC5 exOpen2 exSaveFailAll)) =
        [some (.ioErr ("disk full")), some (.ioErr ("disk full"))] ∧
      jobResults (generateThumbnails exTmC5 exOpen2 exSaveFailSecond) ≠
        jobResults (generateThumbnails exTmC5 exOpen2 exSaveFailAll) := by
  decide

/-- C5 amended: a Job whose source opens produces exactly one Result per
Option, a Job with zero Options yields zero Results and a nil caller
value, completion is signalled only after every dispatched Option has
reported (the caller value is a function of the full arrival list), and
the caller-visible value is non-nil exactly when at least one Option's
Result carries an error — but it is a single aggregated first error, and
the individual Results are not exposed to the caller. -/
theorem c5_results_aggregation (tm : ThumbnailerMessage)
    (openImg : GoURL → Except GoError GoImage)
    (saveErr : GoURL → GoImage → Option GoError)
    (sURL : GoURL) (bk : Backend) (img0 : GoImage)
    (hp : parseURL tm.srcImage = .ok sURL)
    (hn : newImageOpenSaver sURL = .ok bk)
    (ho : openImg sURL = .ok img0) :
    (jobResults (generateThumbnails tm openImg saveErr)).length = tm.opts.length ∧
      (tm.opts = [] → generateThumbnails tm openImg saveErr = .completed [] ∧
        callerError (generateThumbnails tm openImg saveErr) [] = none) ∧
      (∀ arrival : List (Option GoError),
        arrival.Perm (sentErrors (jobResults (generateThumbnails tm openImg saveErr))) →
        (callerError (generateThumbnails tm openImg saveErr) arrival ≠ none ↔
          ∃ r ∈ jobResults (generateThumbnails tm openImg saveErr),
            ∃ e : GoError, r.sent = some (some e))) := by
  have hrun := generateThumbnails_ok tm openImg saveErr sURL bk img0 hp hn ho
  refine ⟨?_, ?_, ?_⟩
  · rw [hrun]
    simp [jobResults]
  · intro hopts
    rw [hrun, hopts]
    exact ⟨rfl, rfl⟩
  · intro arrival hperm
    rw [hrun] at hperm ⊢
    show firstErr arrival ≠ none ↔ _
    rw [firstErr_ne_none_iff]
    constructor
    · rintro ⟨e, he⟩
      have hmem := hperm.mem_iff.mp he
      obtain ⟨r, hr, hre⟩ := (mem_sentErrors _ _).mp hmem
      exact ⟨r, hr, e, hre⟩
    · rintro ⟨r, hr, e, hre⟩
      exact ⟨e, hperm.mem_iff.mpr ((mem_sentErrors _ _).mpr ⟨r, hr, hre⟩)⟩

/-- Witness for C5 amended at the concrete two-option Job exTmC5. -/
theorem c5_results_aggregation_witness :
    (jobResults (generateThumbnails exTmC5 exOpen2 exSaveFailSecond)).length =
      exTmC5.opts.length :=
  (c5_results_aggregation exTmC5 exOpen2 exSaveFailSecond ⟨"file", "", "/src/pic.jpg"⟩ .fs
    exImg2 (by decide) (by decide) rfl).1

/-- Deletion happens only with the flag set and a nil caller value. -/
theorem handleMessage_snd_cases (tm : ThumbnailerMessage)
    (openImg : GoURL → Except GoError GoImage)
    (saveErr : GoURL → GoImage → Option GoError)
    (arrival : List (Option GoError)) :
    (handleMessage tm openImg saveErr arrival).2 = none ∨
      (tm.deleteSrc = true ∧
        callerError (generateThumbnails tm openImg saveErr) arrival = none) := by
  unfold handleMessage
  dsimp only
  cases hce : callerError (generateThumbnails tm openImg saveErr) arrival with
  | some e => exact Or.inl rfl
  | none =>
    cases hds : tm.deleteSrc with
    | false =>
      rw [if_neg Bool.false_ne_true]
      exact Or.inl rfl
    | true => exact Or.inr ⟨rfl, rfl⟩

/-- C6: the source is deleted only when the delete flag is set and the
caller value observed after all Options reported is nil; any failing
Option Result forces no deletion; and destination images already written
by successful Options stay readable in the final file system (no
rollback). -/
theorem c6_delete_source_gate (tm : ThumbnailerMessage)
    (openImg : GoURL → Except GoError GoImage)
    (saveErr : GoURL → GoImage → Option GoError)
    (arrival : List (Option GoError)) (fs0 : FileSys) :
    ((handleMessage tm openImg saveErr arrival).2 ≠ none →
      tm.deleteSrc = true ∧
        callerError (generateThumbnails tm openImg saveErr) arrival = none) ∧
      (arrival.Perm (sentErrors (jobResults (generateThumbnails tm openImg saveErr))) →
        (∃ r ∈ jobResults (generateThumbnails tm openImg saveErr),
          ∃ e : GoError, r.sent = some (some e)) →
        (handleMessage tm openImg saveErr arrival).2 = none) ∧
      (∀ pth : String,
        pth ∈ (savedWrites (generateThumbnails tm openImg saveErr)).map (fun w => w.1.path) →
        (handleMessage tm openImg saveErr arrival).2 ≠ some pth →
        (fsGet (finalFS fs0 (generateThumbnails tm openImg saveErr)
          ((handleMessage tm openImg saveErr arrival).2)) pth).isSome = true) := by
  refine ⟨?_, ?_, ?_⟩
  · intro hne
    exact (handleMessage_snd_cases tm openImg saveErr arrival).resolve_left hne
  · rintro hperm ⟨r, hr, e, hre⟩
    have hmem : some e ∈ sentErrors (jobResults (generateThumbnails tm openImg saveErr)) :=
      (mem_sentErrors _ _).mpr ⟨r, hr, hre⟩
    have hmem2 : some e ∈ arrival := hperm.mem_iff.mpr hmem
    have hcne : callerError (generateThumbnails tm openImg saveErr) arrival ≠ none := by
      cases hrunc : generateThumbnails tm openImg saveErr with
      | jobError e2 => exact Option.noConfusion
      | completed steps =>
        show firstErr arrival ≠ none
        rw [firstErr_ne_none_iff]
        exact ⟨e, hmem2⟩
    obtain ⟨e', he'⟩ := Option.ne_none_iff_exists'.mp hcne
    unfold handleMessage
    dsimp only
    rw [he']
  · intro pth hmem hne
    unfold finalFS
    dsimp only
    cases hdel : (handleMessage tm openImg saveErr arrival).2 with
    | none => exact writesFold_present _ _ _ hmem
    | some p =>
      have hpp : pth ≠ p := by
        intro hc
        rw [← hc] at hdel
        exact hne hdel
      rw [fsGet_filter_ne _ _ _ hpp]
      exact writesFold_present _ _ _ hmem

/-- Witness for C6 at a concrete successful delete-source run. -/
theorem c6_delete_source_gate_witness :
    exTmC6.deleteSrc = true ∧
      callerError (generateThumbnails exTmC6 exOpen2 exSaveOk) [none] = none :=
  (c6_delete_source_gate exTmC6 exOpen2 exSaveOk [none] []).1 (by decide)

end Thumbnailer
